import Mathlib

/-!
Verification of the CV-screener retrieval engine (`src/utils/rag.py`,
`src/app.py`) against its natural-language specification.

The Python code is shallowly embedded: the `CVScreenerRAG` class becomes a
state record, its methods become pure functions that take the external
effects (index loading, document reading, index building, query-engine
execution) as an explicit environment and return the new state together
with the observable result and a trace of the external actions attempted.
Relevance scores (Python floats) are modelled as rationals.
-/

/-- Typed errors of the engine (§7 of the spec).  The Python code raises
`ValueError("Index not loaded! ...")` where the spec says `NotReady`; the
other constructors model exceptions propagated from the external
collaborators. -/
inductive RagError where
  | notReady
  | ingestionFailure
  | buildFailure
  | corruptIndex
  | embeddingFailure
  | synthesisFailure
deriving DecidableEq, Repr

/-- A retrieved source node as `_extract_sources` sees it: the metadata keys
`file_path` and `file_name` may be absent (`meta.get` returning `None`),
the relevance score may be `None`, and the node text may be `None`. -/
structure SourceNode where
  filePath : Option String
  fileName : Option String
  score : Option ℚ
  text : Option String
deriving DecidableEq, Repr

/-- A query-engine response: the synthesized answer plus the (possibly
absent) list of source nodes, mirroring
`getattr(response, "source_nodes", []) or []`. -/
structure Response where
  answer : String
  sourceNodes : Option (List SourceNode)
deriving Repr

/-- Python truthiness fallback `a or default` for an optional string:
`None` and the empty string both fall through to the default. -/
def orElseStr (o : Option String) (default : String) : String :=
  match o with
  | none => default
  | some s => if s.isEmpty then default else s

/-- Python string slice `s[:n]`: the first `n` code points. -/
def pyTake (n : Nat) (s : String) : String :=
  String.mk (s.toList.take n)

/-- Python `str.strip()`: remove leading and trailing whitespace. -/
def pyStrip (s : String) : String :=
  String.mk (((s.toList.dropWhile Char.isWhitespace).reverse.dropWhile
    Char.isWhitespace).reverse)

/-- `os.path.basename`: the part of the path after the last slash. -/
def basename (p : String) : String :=
  String.mk ((p.toList.reverse.takeWhile (fun c => c != '/')).reverse)

/-- Python `round(x, 3)`: rounding to three decimal places, modelled over
the rationals. -/
def round3 (q : ℚ) : ℚ :=
  (round (q * 1000) : ℤ) / 1000

/-- Python truthiness fallback `sn.score or 0.0` on an optional score. -/
def scoreOrZero (o : Option ℚ) : ℚ :=
  match o with
  | none => 0
  | some s => if s = 0 then 0 else s

/-- The `SourcePreview` dataclass of `rag.py`: provenance of one retrieved
chunk, with exactly the fields `file`, `score` and `text`. -/
structure SourcePreview where
  file : String
  score : ℚ
  text : String
deriving DecidableEq, Repr

/-- The body of the loop in `CVScreenerRAG._extract_sources`, applied to one
source node:
`file_name = meta.get("file_path") or meta.get("file_name") or "Unknown"`,
`text = (node.text or "")[:200].strip()`, then
`SourcePreview(file=os.path.basename(file_name),
score=round(sn.score or 0.0, 3), text=(text + "...") if text else "")`. -/
def extractSource (sn : SourceNode) : SourcePreview :=
  let fileName := orElseStr sn.filePath (orElseStr sn.fileName "Unknown")
  let text := pyStrip (pyTake 200 (sn.text.getD ""))
  { file := basename fileName
    score := round3 (scoreOrZero sn.score)
    text := if text.isEmpty then "" else text ++ "..." }

/-- `CVScreenerRAG._extract_sources` over a whole response:
`for sn in getattr(response, "source_nodes", []) or []`. -/
def extractSources (r : Response) : List SourcePreview :=
  (r.sourceNodes.getD []).map extractSource

/-- The document source reference an evidence record's file is derived
from: `file_path`, falling back to `file_name`, falling back to
`"Unknown"`. -/
def sourceRefOf (sn : SourceNode) : String :=
  orElseStr sn.filePath (orElseStr sn.fileName "Unknown")

example : (extractSource ⟨none, none, none, some "hello"⟩).text = "hello..." := by decide

example : (extractSource ⟨none, none, none, some "hello"⟩).file = "Unknown" := by decide

example : basename "cvs/jane_doe.pdf" = "jane_doe.pdf" := by decide

example : round3 0 = 0 := by norm_num [round3]

/-- Modelled from the spec: the `Chunk` data model of §3.  The repository
delegates the vector store entirely to its library dependency, so the chunk
record (`id`, `text`, `source_ref`, `sequence_index`) and its embedding are
modelled from the spec's words.  The embedding is stored normalized at
insertion time (§4.3), so search scores are plain dot products. -/
structure Chunk where
  id : Nat
  text : String
  source_ref : String
  sequence_index : Nat
  embedding : List ℚ
deriving DecidableEq, Repr

/-- Modelled from the spec: the Vector Index of §3, the set of all
(Chunk, Embedding) pairs for a corpus. -/
structure VectorIndex where
  chunks : List Chunk
deriving DecidableEq, Repr

/-- Dot product of two vectors (cosine similarity of vectors normalized at
insertion time, §4.3). -/
def dot : List ℚ → List ℚ → ℚ
  | [], _ => 0
  | _, [] => 0
  | a :: as, b :: bs => a * b + dot as bs

/-- Modelled from the spec: the ranking order of §4.3 — descending by
score, ties broken by ascending `sequence_index`, then by `source_ref`. -/
def rankLE (a b : Chunk × ℚ) : Bool :=
  if a.2 = b.2 then
    if a.1.sequence_index = b.1.sequence_index then
      decide (a.1.source_ref ≤ b.1.source_ref)
    else decide (a.1.sequence_index < b.1.sequence_index)
  else decide (b.2 < a.2)

/-- The ranking order as a proposition, for use with `List.insertionSort`. -/
def RankLE (a b : Chunk × ℚ) : Prop := rankLE a b = true

instance : DecidableRel RankLE := fun a b => by unfold RankLE; infer_instance

/-- Modelled from the spec: each chunk of the index paired with its
similarity score against the query embedding. -/
def VectorIndex.scored (idx : VectorIndex) (q : List ℚ) : List (Chunk × ℚ) :=
  idx.chunks.map (fun c => (c, dot q c.embedding))

/-- Modelled from the spec: `search(queryEmbedding, k)` of §4.3 — score
every chunk, sort by the ranking order, return the first `k`. -/
def VectorIndex.search (idx : VectorIndex) (q : List ℚ) (k : Nat) :
    List (Chunk × ℚ) :=
  ((idx.scored q).insertionSort RankLE).take k

/-- The process-global `Settings` object that `CVScreenerRAG.__init__`
writes to: `Settings.llm`, `Settings.embed_model` and
the sentence-splitter slot of `Settings` (holding the chunk size and
overlap).  Each field is `none` until some constructor has set it. -/
structure GlobalSettings where
  llm : Option String
  embed_model : Option String
  sentenceSplitter : Option (Nat × Nat)
deriving DecidableEq, Repr

/-- A query engine as configured by `index.as_query_engine(...)`: the
`similarity_top_k` value, the optional `text_qa_template` and the optional
`response_mode` it was built with. -/
structure QueryEngine where
  similarity_top_k : Nat
  text_qa_template : Option String
  response_mode : Option String
deriving DecidableEq, Repr

/-- The mutable state of a `CVScreenerRAG` instance: the constructor
arguments it keeps (`cvs_dir`, `persist_dir`, `top_k`) and the `index` and
`query_engine` attributes, both `None` until `load_or_create_index` has
run. -/
structure CVScreenerRAG where
  cvs_dir : String
  persist_dir : String
  top_k : Nat
  index : Option VectorIndex
  query_engine : Option QueryEngine
deriving DecidableEq, Repr

/-- Fallback value of the `OPENAI_LLM_MODEL` environment variable. -/
def DEFAULT_LLM_MODEL : String := "gpt-4o"

/-- Fallback value of the `OPENAI_EMBED_MODEL` environment variable. -/
def DEFAULT_EMBED_MODEL : String := "text-embedding-3-small"

/-- `CVScreenerRAG.__init__`: stores `cvs_dir`, `persist_dir` and `top_k`
on the instance, sets `Settings.llm`, `Settings.embed_model` and
the sentence-splitter slot on the process-global `Settings`, and leaves
`index` and `query_engine` as `None`.  Returns the new instance together
with the mutated global settings. -/
def CVScreenerRAG.mk' (cvs_dir persist_dir llm_model embed_model : String)
    (chunk_size chunk_overlap top_k : Nat) (_g : GlobalSettings) :
    CVScreenerRAG × GlobalSettings :=
  (⟨cvs_dir, persist_dir, top_k, none, none⟩,
   ⟨some llm_model, some embed_model, some (chunk_size, chunk_overlap)⟩)

/-- `CVScreenerRAG()` with every argument left at its default. -/
def CVScreenerRAG.mkDefault (g : GlobalSettings) :
    CVScreenerRAG × GlobalSettings :=
  CVScreenerRAG.mk' "cvs" "data/vector_store" DEFAULT_LLM_MODEL
    DEFAULT_EMBED_MODEL 512 50 5 g

/-- External actions `load_or_create_index` and the query methods can
attempt, recorded in order in a trace. -/
inductive RagAct where
  | loadIndex
  | readDocs
  | buildIndex
  | persistIndex
  | runEngine
deriving DecidableEq, Repr

/-- The external collaborators of `load_or_create_index`: whether
persisted storage exists at `persist_dir`, and the outcomes of
`load_index_from_storage`, `SimpleDirectoryReader(...).load_data`,
`VectorStoreIndex.from_documents` and `storage_context.persist`. -/
structure LifecycleEnv where
  persistExists : Bool
  loadResult : Except RagError VectorIndex
  readResult : Except RagError (List String)
  buildResult : List String → Except RagError VectorIndex
  persistResult : Except RagError Unit

/-- The query engine `load_or_create_index` installs:
`self.index.as_query_engine(similarity_top_k=self.top_k,
response_mode="compact")`. -/
def defaultEngine (rag : CVScreenerRAG) : QueryEngine :=
  ⟨rag.top_k, none, some "compact"⟩

/-- `CVScreenerRAG.load_or_create_index`: if storage exists at
`persist_dir`, load it (a load failure propagates — no rebuild is
attempted); otherwise read the documents, build the index, persist it.
On success the default query engine is installed.  Returns the outcome,
the post-state and the trace of external actions attempted. -/
def CVScreenerRAG.load_or_create_index (rag : CVScreenerRAG)
    (env : LifecycleEnv) :
    Except RagError Unit × CVScreenerRAG × List RagAct :=
  if env.persistExists then
    match env.loadResult with
    | .error e => (.error e, rag, [.loadIndex])
    | .ok idx =>
        let rag1 := { rag with index := some idx }
        (.ok (), { rag1 with query_engine := some (defaultEngine rag1) },
         [.loadIndex])
  else
    match env.readResult with
    | .error e => (.error e, rag, [.readDocs])
    | .ok docs =>
        match env.buildResult docs with
        | .error e => (.error e, rag, [.readDocs, .buildIndex])
        | .ok idx =>
            let rag1 := { rag with index := some idx }
            match env.persistResult with
            | .error e => (.error e, rag1, [.readDocs, .buildIndex, .persistIndex])
            | .ok _ =>
                (.ok (), { rag1 with query_engine := some (defaultEngine rag1) },
                 [.readDocs, .buildIndex, .persistIndex])

/-- The external behaviour of a query engine run
(`engine.query(question)`): embedding the question, searching the index
and synthesizing an answer, all delegated to the library.  It is a
function of the shared index, the engine configuration and the question;
a raised exception is an `error` value. -/
structure QueryEnv where
  run : Option VectorIndex → QueryEngine → String → Except RagError Response

/-- Result of one call to `query` or `custom_query`: the returned
(answer, previews) pair or the propagated exception, the post-state of
the instance, the engine configuration the call queried with (`none` when
no engine was run), and the trace of external actions attempted. -/
structure QueryOutcome where
  result : Except RagError (String × List SourcePreview)
  post : CVScreenerRAG
  engineUsed : Option QueryEngine
  trace : List RagAct

/-- The f-string prompt template `custom_query` builds around a custom
system prompt. -/
def customTemplate (system_prompt : String) : String :=
  system_prompt ++ "\n\n" ++
  "Context information is below:\n" ++
  "---------------------\n" ++
  "{context_str}\n" ++
  "---------------------\n" ++
  "Given the context information and not prior knowledge,\n" ++
  "answer the query.\n" ++
  "Query: {query_str}\n" ++
  "Answer:"

/-- The engine `custom_query` builds for a truthy custom prompt:
`self.index.as_query_engine(text_qa_template=qa_prompt,
similarity_top_k=self.top_k)`. -/
def customEngine (rag : CVScreenerRAG) (system_prompt : String) : QueryEngine :=
  ⟨rag.top_k, some (customTemplate system_prompt), none⟩

/-- Run one engine call and package the outcome; the instance state is
returned unchanged — neither `query` nor `custom_query` assigns to
`self`. -/
def runEngineWith (env : QueryEnv) (rag : CVScreenerRAG) (qe : QueryEngine)
    (question : String) : QueryOutcome :=
  match env.run rag.index qe question with
  | .error e => ⟨.error e, rag, some qe, [.runEngine]⟩
  | .ok resp => ⟨.ok (resp.answer, extractSources resp), rag, some qe, [.runEngine]⟩

/-- `CVScreenerRAG.query`: raises when `self.query_engine is None`,
otherwise runs the default engine and extracts the sources. -/
def CVScreenerRAG.query (rag : CVScreenerRAG) (env : QueryEnv)
    (question : String) : QueryOutcome :=
  match rag.query_engine with
  | none => ⟨.error .notReady, rag, none, []⟩
  | some qe => runEngineWith env rag qe question

/-- `CVScreenerRAG.custom_query`: raises when `self.query_engine is
None`; for a truthy `system_prompt` builds a fresh engine with the custom
template (never stored on `self`), otherwise reuses the default engine. -/
def CVScreenerRAG.custom_query (rag : CVScreenerRAG) (env : QueryEnv)
    (question : String) (system_prompt : Option String) : QueryOutcome :=
  match rag.query_engine with
  | none => ⟨.error .notReady, rag, none, []⟩
  | some qe =>
      match system_prompt with
      | none => runEngineWith env rag qe question
      | some p =>
          if p.isEmpty then runEngineWith env rag qe question
          else runEngineWith env rag (customEngine rag p) question

/-- The fixed message `app.py` shows when a query raises. -/
def internalErrorMsg : String :=
  "I couldn't complete that query due to an internal error."

/-- The chat-input handler of `app.py`: calls `rag.query`, and on an
exception substitutes the fixed failure message and an empty evidence
list.  Returns the (answer, sources) pair shown to the user and the
instance state afterwards. -/
def handleChat (rag : CVScreenerRAG) (env : QueryEnv) (question : String) :
    (String × List SourcePreview) × CVScreenerRAG :=
  let out := rag.query env question
  match out.result with
  | .ok pair => (pair, out.post)
  | .error _ => ((internalErrorMsg, []), out.post)

lemma round3_zero : round3 0 = 0 := by norm_num [round3]

lemma scoreOrZero_some (s : ℚ) : scoreOrZero (some s) = s := by
  show (if s = 0 then 0 else s) = s
  split_ifs with h
  · exact h.symm
  · rfl

lemma length_pyTake_le (n : Nat) (s : String) : (pyTake n s).length ≤ n := by
  show (s.toList.take n).length ≤ n
  simp [List.length_take]

lemma length_pyStrip_le (s : String) : (pyStrip s).length ≤ s.length := by
  show (((s.toList.dropWhile Char.isWhitespace).reverse.dropWhile
          Char.isWhitespace).reverse).length ≤ s.toList.length
  rw [List.length_reverse]
  calc ((s.toList.dropWhile Char.isWhitespace).reverse.dropWhile
          Char.isWhitespace).length
      ≤ ((s.toList.dropWhile Char.isWhitespace).reverse).length :=
        (List.dropWhile_sublist _).length_le
    _ = (s.toList.dropWhile Char.isWhitespace).length := List.length_reverse _
    _ ≤ s.toList.length := (List.dropWhile_sublist _).length_le

/-- The ranking order, spelled out as a proposition: strictly higher
score first, then lower `sequence_index`, then `source_ref`. -/
lemma rankLE_iff (a b : Chunk × ℚ) : RankLE a b ↔
    b.2 < a.2 ∨ (a.2 = b.2 ∧ (a.1.sequence_index < b.1.sequence_index ∨
      (a.1.sequence_index = b.1.sequence_index ∧
        a.1.source_ref ≤ b.1.source_ref))) := by
  unfold RankLE rankLE
  by_cases hs : a.2 = b.2 <;>
    by_cases hq : a.1.sequence_index = b.1.sequence_index <;>
      simp [hs, hq, lt_irrefl]

lemma RankLE.score_le {a b : Chunk × ℚ} (h : RankLE a b) : b.2 ≤ a.2 := by
  rw [rankLE_iff] at h
  rcases h with h | ⟨h, _⟩
  · exact h.le
  · exact h.ge

instance : IsTotal (Chunk × ℚ) RankLE := by
  constructor
  intro a b
  rw [rankLE_iff, rankLE_iff]
  rcases lt_trichotomy a.2 b.2 with h | h | h
  · exact Or.inr (Or.inl h)
  · rcases Nat.lt_trichotomy a.1.sequence_index b.1.sequence_index with
      hq | hq | hq
    · exact Or.inl (Or.inr ⟨h, Or.inl hq⟩)
    · rcases le_total a.1.source_ref b.1.source_ref with hr | hr
      · exact Or.inl (Or.inr ⟨h, Or.inr ⟨hq, hr⟩⟩)
      · exact Or.inr (Or.inr ⟨h.symm, Or.inr ⟨hq.symm, hr⟩⟩)
    · exact Or.inr (Or.inr ⟨h.symm, Or.inl hq⟩)
  · exact Or.inl (Or.inl h)

instance : IsTrans (Chunk × ℚ) RankLE := by
  constructor
  intro a b c hab hbc
  rw [rankLE_iff] at hab hbc ⊢
  rcases hab with h1 | ⟨h1, h2⟩ <;> rcases hbc with h3 | ⟨h3, h4⟩
  · exact Or.inl (h3.trans h1)
  · exact Or.inl (h3 ▸ h1)
  · exact Or.inl (h1 ▸ h3)
  · refine Or.inr ⟨h1.trans h3, ?_⟩
    rcases h2 with h2 | ⟨h2, h2r⟩ <;> rcases h4 with h4 | ⟨h4, h4r⟩
    · exact Or.inl (h2.trans h4)
    · exact Or.inl (h4 ▸ h2)
    · exact Or.inl (h2 ▸ h4)
    · exact Or.inr ⟨h2.trans h4, h2r.trans h4r⟩

/-- A fresh global `Settings` object, before any constructor ran. -/
def settings0 : GlobalSettings := ⟨none, none, none⟩

/-- A freshly constructed `CVScreenerRAG()` with all defaults. -/
def ragFresh : CVScreenerRAG := (CVScreenerRAG.mkDefault settings0).1

/-- An empty vector index. -/
def idx0 : VectorIndex := ⟨[]⟩

/-- Lifecycle environment where persisted storage exists and loads. -/
def envLoadOk : LifecycleEnv := ⟨true, .ok idx0, .ok [], fun _ => .ok idx0, .ok ()⟩

/-- Lifecycle environment where persisted storage exists but is corrupt. -/
def envLoadFail : LifecycleEnv :=
  ⟨true, .error .corruptIndex, .ok [], fun _ => .ok idx0, .ok ()⟩

/-- Lifecycle environment with no persisted storage and a clean build. -/
def envBuildOk : LifecycleEnv :=
  ⟨false, .error .corruptIndex, .ok ["cv"], fun _ => .ok idx0, .ok ()⟩

/-- A ready instance: fresh construction followed by a successful load. -/
def ragReady : CVScreenerRAG := (ragFresh.load_or_create_index envLoadOk).2.1

/-- A concrete successful engine response with one source node. -/
def respOk : Response :=
  ⟨"Jane has Python experience.",
   some [⟨some "cvs/jane.pdf", none, some 1, some "Jane knows Python."⟩]⟩

/-- A query environment whose engine always succeeds with `respOk`. -/
def envRunOk : QueryEnv := ⟨fun _ _ _ => .ok respOk⟩

/-- A query environment whose engine always raises a synthesis failure. -/
def envRunFail : QueryEnv := ⟨fun _ _ _ => .error .synthesisFailure⟩

/-- **C1, counterexample.**  The claim says a chunk text of 200 characters
or fewer is returned verbatim with no ellipsis marker.  The code appends
the marker to every non-empty preview: a 5-character chunk text
`"hello"` yields the preview `"hello..."`, not `"hello"`. -/
theorem C1_counterexample :
    "hello".length ≤ 200 ∧
    (extractSource ⟨none, none, none, some "hello"⟩).text = "hello..." ∧
    (extractSource ⟨none, none, none, some "hello"⟩).text ≠ "hello" := by
  refine ⟨by decide, by decide, by decide⟩

/-- **C1, amended.**  For every retrieved chunk, the evidence text preview
is the chunk text truncated to 200 characters and whitespace-trimmed,
with the ellipsis marker appended whenever that trimmed truncation is
non-empty (not only when the text exceeded 200 characters); an empty or
all-whitespace text yields an empty preview with no marker.  The preview
never exceeds 203 characters. -/
theorem C1_amended_preview (sn : SourceNode) :
    ((extractSource sn).text =
      if pyStrip (pyTake 200 (sn.text.getD "")) = "" then ""
      else pyStrip (pyTake 200 (sn.text.getD "")) ++ "...") ∧
    (extractSource sn).text.length ≤ 203 := by
  constructor
  · show (if (pyStrip (pyTake 200 (sn.text.getD ""))).isEmpty then ""
        else pyStrip (pyTake 200 (sn.text.getD "")) ++ "...") = _
    rcases eq_or_ne (pyStrip (pyTake 200 (sn.text.getD ""))) "" with h | h
    · simp [h, String.isEmpty_iff]
    · simp [h, String.isEmpty_iff]
  · show (if (pyStrip (pyTake 200 (sn.text.getD ""))).isEmpty then ""
        else pyStrip (pyTake 200 (sn.text.getD "")) ++ "...").length ≤ 203
    split_ifs with h
    · simp
    · rw [String.length_append]
      have h1 := length_pyStrip_le (pyTake 200 (sn.text.getD ""))
      have h2 := length_pyTake_le 200 (sn.text.getD "")
      have h3 : ("..." : String).length = 3 := rfl
      omega

/-- The observable behaviour the spec requires of a not-ready engine:
both query entry points fail with the not-ready error, attempt no
external action, and their outcome does not depend on the external
environment at all. -/
def notReadyBehavior (rag : CVScreenerRAG) (env env2 : QueryEnv)
    (question : String) (sp : Option String) : Prop :=
  (rag.query env question).result = .error .notReady ∧
  (rag.query env question).trace = [] ∧
  rag.query env question = rag.query env2 question ∧
  (rag.custom_query env question sp).result = .error .notReady ∧
  (rag.custom_query env question sp).trace = [] ∧
  rag.custom_query env question sp = rag.custom_query env2 question sp

/-- **C2.**  If the index has not been loaded or created
(`self.query_engine is None`), `query` and `custom_query` fail
immediately with the not-ready error: no engine run (hence no embedding
or search call) is attempted, and the outcome is independent of the
external environment. -/
theorem C2_not_ready (rag : CVScreenerRAG) (env env2 : QueryEnv)
    (question : String) (sp : Option String)
    (h : rag.query_engine = none) :
    notReadyBehavior rag env env2 question sp := by
  unfold notReadyBehavior CVScreenerRAG.query CVScreenerRAG.custom_query
  rw [h]
  exact ⟨rfl, rfl, rfl, rfl, rfl, rfl⟩

/-- Witness for C2: a freshly constructed instance is not ready, and shows
the not-ready behaviour on concrete environments. -/
theorem C2_witness :
    ragFresh.query_engine = none ∧
    notReadyBehavior ragFresh envRunFail envRunOk "Who knows Python?" none :=
  ⟨rfl, C2_not_ready ragFresh envRunFail envRunOk "Who knows Python?" none rfl⟩

/-- **C9.**  Constructing a `CVScreenerRAG` overwrites the process-global
`Settings` (LLM, embedding model, sentence-splitter chunking) with that
instance's configuration, independently of the previous global state: after
two constructions in sequence, the globals hold exactly the second
instance's configuration. -/
theorem C9_settings_overwrite (g : GlobalSettings)
    (c1 p1 l1 e1 : String) (cs1 co1 k1 : Nat)
    (c2 p2 l2 e2 : String) (cs2 co2 k2 : Nat) :
    (CVScreenerRAG.mk' c1 p1 l1 e1 cs1 co1 k1 g).2 =
      ⟨some l1, some e1, some (cs1, co1)⟩ ∧
    (CVScreenerRAG.mk' c2 p2 l2 e2 cs2 co2 k2
        (CVScreenerRAG.mk' c1 p1 l1 e1 cs1 co1 k1 g).2).2 =
      ⟨some l2, some e2, some (cs2, co2)⟩ :=
  ⟨rfl, rfl⟩

/-- **C10.**  Evidence extraction is total with documented defaults:
missing `file_path` and `file_name` yield the file value `"Unknown"`, a
missing score yields `0.0`, an absent or empty node text yields an empty
preview, and a response without source nodes yields an empty evidence
list.  (In the embedding `extractSource` is a total function, so no field
is ever absent and no input raises.) -/
theorem C10_total_defaults (sn : SourceNode) :
    (sn.filePath = none → sn.fileName = none →
      (extractSource sn).file = "Unknown") ∧
    (sn.score = none → (extractSource sn).score = 0) ∧
    ((sn.text = none ∨ sn.text = some "") → (extractSource sn).text = "") ∧
    (∀ ans, extractSources ⟨ans, none⟩ = []) := by
  obtain ⟨fp, fn, sc, tx⟩ := sn
  refine ⟨?_, ?_, ?_, fun ans => rfl⟩
  · rintro rfl rfl
    show basename (orElseStr none (orElseStr none "Unknown")) = "Unknown"
    decide
  · rintro rfl
    show round3 (scoreOrZero none) = 0
    exact round3_zero
  · rintro (rfl | rfl) <;> rfl

/-- Witness for C10: the all-missing source node maps to the documented
defaults. -/
theorem C10_witness :
    (extractSource ⟨none, none, none, none⟩).file = "Unknown" ∧
    (extractSource ⟨none, none, none, none⟩).score = 0 ∧
    (extractSource ⟨none, none, none, none⟩).text = "" := by
  have h := C10_total_defaults ⟨none, none, none, none⟩
  exact ⟨h.1 rfl rfl, h.2.1 rfl, h.2.2.1 (Or.inl rfl)⟩

/-- The lifecycle behaviour required of `load_or_create_index`: when
persisted storage exists, only a load is attempted — a load failure
propagates, leaving the instance untouched, with no silent rebuild; when
no storage exists, no load is attempted, persistence is attempted exactly
when reading and building both succeeded, and success installs the query
engine. -/
def lifecycleSpec (rag : CVScreenerRAG) (env : LifecycleEnv) : Prop :=
  (env.persistExists = true →
    (rag.load_or_create_index env).2.2 = [RagAct.loadIndex] ∧
    ∀ e, env.loadResult = .error e →
      (rag.load_or_create_index env).1 = .error e ∧
      (rag.load_or_create_index env).2.1 = rag) ∧
  (env.persistExists = false →
    RagAct.loadIndex ∉ (rag.load_or_create_index env).2.2 ∧
    (RagAct.persistIndex ∈ (rag.load_or_create_index env).2.2 ↔
      ∃ docs idx, env.readResult = .ok docs ∧ env.buildResult docs = .ok idx) ∧
    ((rag.load_or_create_index env).1 = .ok () →
      ((rag.load_or_create_index env).2.1.query_engine.isSome ∧
       (rag.load_or_create_index env).2.1.index.isSome)))

/-- **C3.**  On startup, if persisted storage exists the controller
attempts only a load, and a load failure (e.g. a corrupt index) surfaces
as that very failure with the instance unchanged — it never falls back to
a rebuild.  Only when no storage exists does the read→build→persist
pipeline run, with persistence attempted exactly when the build
succeeded, and a query engine installed only on overall success. -/
theorem C3_lifecycle (rag : CVScreenerRAG) (env : LifecycleEnv) :
    lifecycleSpec rag env := by
  obtain ⟨pe, lr, rr, br, pr⟩ := env
  unfold lifecycleSpec CVScreenerRAG.load_or_create_index
  cases pe
  · refine ⟨by simp, ?_⟩
    intro _
    rcases rr with e | docs
    · simp
    · rcases hbr : br docs with e | idx
      · simp [hbr]
      · rcases pr with e | u <;> simp [hbr]
  · refine ⟨?_, by simp⟩
    intro _
    rcases lr with e | idx <;> simp

/-- Witness for C3: against a concrete corrupt persisted store, startup
surfaces the corrupt-index failure after attempting only the load. -/
theorem C3_witness :
    envLoadFail.persistExists = true ∧
    envLoadFail.loadResult = .error .corruptIndex ∧
    (ragFresh.load_or_create_index envLoadFail).2.2 = [RagAct.loadIndex] ∧
    (ragFresh.load_or_create_index envLoadFail).1 = .error .corruptIndex ∧
    (ragFresh.load_or_create_index envLoadFail).2.1 = ragFresh := by
  have h := (C3_lifecycle ragFresh envLoadFail).1 rfl
  exact ⟨rfl, rfl, h.1, (h.2 .corruptIndex rfl).1, (h.2 .corruptIndex rfl).2⟩

/-- What C4 requires of a templated `custom_query` call: the instance
(and with it the stored default engine and the index) is unchanged, the
call ran its own freshly built engine carrying the custom template, and a
later plain `query` still runs whatever engine the instance stored. -/
def customQueryFrame (rag : CVScreenerRAG) (env env2 : QueryEnv)
    (q q2 p : String) : Prop :=
  (rag.custom_query env q (some p)).post = rag ∧
  (rag.custom_query env q (some p)).engineUsed = some (customEngine rag p) ∧
  ((rag.custom_query env q (some p)).post.query env2 q2).engineUsed =
    rag.query_engine

/-- **C4.**  A `custom_query` call with a (non-empty) custom instruction
template does not mutate shared configuration: the instance — its default
engine and its index — is returned unchanged, the call builds and uses
its own per-call engine holding the custom template, and a subsequent
plain `query` uses the unchanged stored default engine. -/
theorem C4_no_shared_mutation (rag : CVScreenerRAG) (env env2 : QueryEnv)
    (q q2 p : String) (qe : QueryEngine)
    (hready : rag.query_engine = some qe) (hp : p.isEmpty = false) :
    customQueryFrame rag env env2 q q2 p := by
  unfold customQueryFrame CVScreenerRAG.custom_query CVScreenerRAG.query
    runEngineWith
  rcases h : env.run rag.index (customEngine rag p) q with e | r <;>
    rcases h2 : env2.run rag.index qe q2 with e2 | r2 <;>
      simp [hready, hp, h, h2]

/-- Witness for C4: a ready instance, a non-empty template, and concrete
environments exhibit the frame property. -/
theorem C4_witness :
    ragReady.query_engine = some ⟨5, none, some "compact"⟩ ∧
    ("Answer briefly.".isEmpty = false) ∧
    customQueryFrame ragReady envRunFail envRunOk "a" "b" "Answer briefly." :=
  ⟨rfl, rfl, C4_no_shared_mutation ragReady envRunFail envRunOk "a" "b"
    "Answer briefly." ⟨5, none, some "compact"⟩ rfl rfl⟩

/-- What C5 requires: the failing query surfaces the app's fixed failure
message with an empty evidence list, the instance — including the shared
index — is unchanged, and the next query on that same instance succeeds
normally. -/
def failureIsolation (rag : CVScreenerRAG) (env env2 : QueryEnv)
    (q1 q2 : String) (resp : Response) : Prop :=
  handleChat rag env q1 = ((internalErrorMsg, []), rag) ∧
  (handleChat rag env q1).2.index = rag.index ∧
  ((handleChat rag env q1).2.query env2 q2).result =
    .ok (resp.answer, extractSources resp)

/-- **C5.**  A query-time failure is scoped to that single query: the
chat handler of `app.py` catches the exception and shows the fixed
failure message with an empty evidence list, the shared index is left
unchanged, and a subsequent query against the same instance (whose
engine call now succeeds) returns its answer and evidence normally. -/
theorem C5_failure_isolation (rag : CVScreenerRAG) (env env2 : QueryEnv)
    (q1 q2 : String) (qe : QueryEngine) (resp : Response) (e : RagError)
    (hready : rag.query_engine = some qe)
    (hfail : env.run rag.index qe q1 = .error e)
    (hok : env2.run rag.index qe q2 = .ok resp) :
    failureIsolation rag env env2 q1 q2 resp := by
  unfold failureIsolation handleChat CVScreenerRAG.query runEngineWith
  simp [hready, hfail, hok]

/-- Witness for C5: a concrete synthesis failure followed by a concrete
success on the same ready instance. -/
theorem C5_witness :
    ragReady.query_engine = some ⟨5, none, some "compact"⟩ ∧
    envRunFail.run ragReady.index ⟨5, none, some "compact"⟩ "q1" =
      .error .synthesisFailure ∧
    envRunOk.run ragReady.index ⟨5, none, some "compact"⟩ "q2" = .ok respOk ∧
    failureIsolation ragReady envRunFail envRunOk "q1" "q2" respOk :=
  ⟨rfl, rfl, rfl, C5_failure_isolation ragReady envRunFail envRunOk "q1" "q2"
    ⟨5, none, some "compact"⟩ respOk .synthesisFailure rfl rfl rfl⟩

/-- What C6 requires of a successful query: the result is the answer
string paired with the evidence list obtained by mapping the extraction
over the retrieved source nodes in order, every evidence file is the base
file name of the node's source reference, and every evidence score is the
retriever's score rounded to three decimal places (0 when absent). -/
def queryContract (rag : CVScreenerRAG) (env : QueryEnv) (q : String)
    (resp : Response) : Prop :=
  (rag.query env q).result =
    .ok (resp.answer, (resp.sourceNodes.getD []).map extractSource) ∧
  ∀ sn ∈ resp.sourceNodes.getD [],
    (extractSource sn).file = basename (sourceRefOf sn) ∧
    (∀ s, sn.score = some s → (extractSource sn).score = round3 s) ∧
    (sn.score = none → (extractSource sn).score = round3 0)

/-- **C6.**  For every successful query, the result is the answer string
plus the ordered evidence list (one `SourcePreview` per retrieved node,
in retrieval order, carrying exactly the fields `file`, `score`, `text`),
where `file` is the base file name derived from the node's source
reference and `score` is the retriever's relevance score rounded to 3
decimal places. -/
theorem C6_query_contract (rag : CVScreenerRAG) (env : QueryEnv)
    (q : String) (qe : QueryEngine) (resp : Response)
    (hready : rag.query_engine = some qe)
    (hok : env.run rag.index qe q = .ok resp) :
    queryContract rag env q resp := by
  unfold queryContract CVScreenerRAG.query runEngineWith
  refine ⟨by simp [hready, hok, extractSources], ?_⟩
  intro sn _
  refine ⟨rfl, fun s hs => ?_, fun hs => ?_⟩
  · show round3 (scoreOrZero sn.score) = round3 s
    rw [hs, scoreOrZero_some]
  · show round3 (scoreOrZero sn.score) = round3 0
    rw [hs]
    rfl

/-- Witness for C6: the concrete ready instance and succeeding
environment satisfy the query contract. -/
theorem C6_witness :
    ragReady.query_engine = some ⟨5, none, some "compact"⟩ ∧
    envRunOk.run ragReady.index ⟨5, none, some "compact"⟩ "q" = .ok respOk ∧
    queryContract ragReady envRunOk "q" respOk :=
  ⟨rfl, rfl, C6_query_contract ragReady envRunOk "q"
    ⟨5, none, some "compact"⟩ respOk rfl rfl⟩

/-- An outcome ran its nearest-neighbor search with `k` if the engine it
queried with was configured with `similarity_top_k = k`. -/
def usesTopK (out : QueryOutcome) (k : Nat) : Prop :=
  ∀ qe, out.engineUsed = some qe → qe.similarity_top_k = k

/-- What C7 requires after a successful `load_or_create_index`: the
stored engine was built once with `similarity_top_k = top_k`, and every
query — plain or custom, with any per-call template — runs an engine
configured with that same fixed `top_k`. -/
def topKFixed (rag : CVScreenerRAG) (envL : LifecycleEnv)
    (env env2 : QueryEnv) (q q2 : String) (sp : Option String) : Prop :=
  (rag.load_or_create_index envL).2.1.query_engine =
    some ⟨rag.top_k, none, some "compact"⟩ ∧
  usesTopK ((rag.load_or_create_index envL).2.1.query env q) rag.top_k ∧
  usesTopK ((rag.load_or_create_index envL).2.1.custom_query env2 q2 sp)
    rag.top_k

/-- **C7.**  The default `top_k` is 5; after a successful
`load_or_create_index` the query engine is constructed once with
`similarity_top_k` equal to the instance's fixed `top_k`, and every
subsequent query (plain or custom) runs an engine configured with that
same value — no query varies it. -/
theorem C7_fixed_top_k (g : GlobalSettings) (rag : CVScreenerRAG)
    (envL : LifecycleEnv) (env env2 : QueryEnv) (q q2 : String)
    (sp : Option String)
    (hok : (rag.load_or_create_index envL).1 = .ok ()) :
    (CVScreenerRAG.mkDefault g).1.top_k = 5 ∧
    topKFixed rag envL env env2 q q2 sp := by
  refine ⟨rfl, ?_⟩
  obtain ⟨pe, lr, rr, br, pr⟩ := envL
  unfold topKFixed
  unfold CVScreenerRAG.load_or_create_index at hok ⊢
  have henge : ∀ rag2 : CVScreenerRAG,
      rag2.query_engine = some ⟨rag.top_k, none, some "compact"⟩ →
      rag2.top_k = rag.top_k →
      usesTopK (rag2.query env q) rag.top_k ∧
      usesTopK (rag2.custom_query env2 q2 sp) rag.top_k := by
    intro rag2 he ht
    constructor
    · unfold CVScreenerRAG.query runEngineWith
      rw [he]
      rcases h : env.run rag2.index ⟨rag.top_k, none, some "compact"⟩ q with
        e | r <;> simp [h, usesTopK]
    · unfold CVScreenerRAG.custom_query runEngineWith
      rw [he]
      rcases sp with _ | p
      · rcases h : env2.run rag2.index ⟨rag.top_k, none, some "compact"⟩ q2
          with e | r <;> simp [h, usesTopK]
      · rcases hp : p.isEmpty with _ | _
        · rcases h : env2.run rag2.index (customEngine rag2 p) q2 with e | r <;>
            simp [hp, h, usesTopK] <;> simp [customEngine, ht]
        · rcases h : env2.run rag2.index ⟨rag.top_k, none, some "compact"⟩ q2
            with e | r <;> simp [hp, h, usesTopK]
  cases pe
  · rcases rr with e | docs
    · simp at hok
    · rcases hbr : br docs with e | idx
      · simp [hbr] at hok
      · rcases pr with e | u
        · simp [hbr] at hok
        · simp only [hbr]
          refine ⟨rfl, ?_⟩
          exact henge _ rfl rfl
  · rcases lr with e | idx
    · simp at hok
    · exact ⟨rfl, henge _ rfl rfl⟩

/-- Witness for C7: the default construction has `top_k = 5`, and a
concrete successful load exhibits the fixed-`top_k` behaviour. -/
theorem C7_witness :
    (ragFresh.load_or_create_index envLoadOk).1 = .ok () ∧
    (CVScreenerRAG.mkDefault settings0).1.top_k = 5 ∧
    topKFixed ragFresh envLoadOk envRunOk envRunFail "a" "b"
      (some "Answer briefly.") := by
  have h := C7_fixed_top_k settings0 ragFresh envLoadOk envRunOk envRunFail
    "a" "b" (some "Answer briefly.") rfl
  exact ⟨rfl, h.1, h.2⟩

/-- What C8 requires of `search` for `k` within the chunk count: the
result has exactly `k` entries, is ordered by the full ranking order
(hence descending by score with the sequence-index/source-ref
tie-break), every entry is a scored chunk of the index, and every scored
chunk left out scores no higher than any entry returned — i.e. the
result is exactly the `k` highest-similarity chunks.  `search` is a pure
function of the index, query and `k`, so repeated calls on an unchanged
index return this identical ordered result. -/
def searchSpec (idx : VectorIndex) (q : List ℚ) (k : Nat) : Prop :=
  (idx.search q k).length = k ∧
  List.Pairwise RankLE (idx.search q k) ∧
  List.Pairwise (fun a b => b.2 ≤ a.2) (idx.search q k) ∧
  (∀ a ∈ idx.search q k, a ∈ idx.scored q) ∧
  (∀ a ∈ idx.search q k, ∀ b ∈ idx.scored q, b ∉ idx.search q k → b.2 ≤ a.2)

/-- **C8.**  For every query embedding and every `k` not exceeding the
chunk count, `search` returns exactly the `k` chunks with the highest
similarity to the query, ordered descending by score with ties broken by
ascending `sequence_index` then `source_ref`; being a pure function, it
returns identical ordered results on every repetition over an unchanged
index. -/
theorem C8_search_top_k (idx : VectorIndex) (q : List ℚ) (k : Nat)
    (hk : k ≤ idx.chunks.length) : searchSpec idx q k := by
  unfold searchSpec VectorIndex.search
  have hperm := List.perm_insertionSort RankLE (idx.scored q)
  have hsort := List.sorted_insertionSort RankLE (idx.scored q)
  have hlen : ((idx.scored q).insertionSort RankLE).length =
      idx.chunks.length := by
    rw [hperm.length_eq]
    unfold VectorIndex.scored
    exact List.length_map _ _
  have htake : List.Pairwise RankLE
      (((idx.scored q).insertionSort RankLE).take k) :=
    hsort.sublist (List.take_sublist k _)
  refine ⟨?_, htake, ?_, ?_, ?_⟩
  · rw [List.length_take, hlen]
    omega
  · exact htake.imp (fun hab => RankLE.score_le hab)
  · intro a ha
    exact hperm.mem_iff.mp (List.mem_of_mem_take ha)
  · intro a ha b hb hbn
    have hbL : b ∈ (idx.scored q).insertionSort RankLE := hperm.mem_iff.mpr hb
    have hbd : b ∈ ((idx.scored q).insertionSort RankLE).drop k := by
      have hsplit : b ∈ (((idx.scored q).insertionSort RankLE).take k) ++
          (((idx.scored q).insertionSort RankLE).drop k) := by
        rw [List.take_append_drop]
        exact hbL
      rcases List.mem_append.mp hsplit with h | h
      · exact absurd h hbn
      · exact h
    exact RankLE.score_le (hsort.rel_of_mem_take_of_mem_drop ha hbd)

/-- A concrete three-chunk index with pre-normalized-style embeddings. -/
def idx3 : VectorIndex :=
  ⟨[⟨0, "alpha", "a.pdf", 0, [1, 0]⟩, ⟨1, "beta", "b.pdf", 0, [0, 1]⟩,
    ⟨2, "gamma", "c.pdf", 1, [1, 1]⟩]⟩

/-- Witness for C8: the three-chunk index with `k = 2` satisfies the
search specification. -/
theorem C8_witness : 2 ≤ idx3.chunks.length ∧ searchSpec idx3 [1, 0] 2 :=
  ⟨by decide, C8_search_top_k idx3 [1, 0] 2 (by decide)⟩
